import Mathlib

/-!
# Verification of the devinci-pybuilder configuration-to-manifest pipeline

Shallow embedding of the `devinci_pybuilder` Python package:
`devinci_pybuilder.py` (config reading, field extraction, manifest
rendering), `main.py` (orchestrator, integration task), `file_utils.py`
(scaffolding helpers) and `build_chores/custom_install_command.py`
(install hook).

Python strings are modelled as Lean `String`s, with the character-level
operations (`str.split`, `str.strip`, line splitting) implemented
explicitly over `List Char` to mirror Python semantics.  The file system
is modelled as an explicit `World` state: text files, parsed INI files
and directories.  Fallible Python code (raising `ValueError`,
`FileNotFoundError`) is modelled with `Except`.
-/

/-- Python errors raised by the embedded code. -/
inductive PyErr where
  | fileNotFound : PyErr
  | valueError : PyErr
deriving DecidableEq

/-! ## Character-level string primitives -/

/-- Python whitespace test for `str.strip` (the characters that occur in
this code base's data: space, tab, carriage return, newline). -/
def pySpace (c : Char) : Bool :=
  c = ' ' || c = '\t' || c = '\r' || c = '\n'

/-- `str.strip()` on the character list: drop whitespace from both ends. -/
def pyStrip (l : List Char) : List Char :=
  ((l.dropWhile pySpace).reverse.dropWhile pySpace).reverse

/-- `str.strip()` on a Python string. -/
def pyStripStr (s : String) : String :=
  ⟨pyStrip s.data⟩

/-- `str.split(sep)` (single-character separator, no maxsplit) on the
character list: splits at EVERY occurrence of `sep`. -/
def splitCh (sep : Char) : List Char → List (List Char)
  | [] => [[]]
  | c :: cs =>
    match splitCh sep cs with
    | [] => [[]]
    | h :: t => if c = sep then [] :: h :: t else (c :: h) :: t

/-- `str.split(sep)` on a Python string. -/
def pySplit (s : String) (sep : Char) : List String :=
  (splitCh sep s.data).map (fun l => ⟨l⟩)

/-- Joining logical lines with a newline between consecutive lines
(the inverse image used to describe a text file's line structure). -/
def joinCh (sep : Char) : List (List Char) → List Char
  | [] => []
  | [l] => l
  | l :: ls => l ++ sep :: joinCh sep ls

/-- `file.readlines()` followed by dropping the line terminators: split
the content at newlines; a trailing newline does not open a final empty
line (Python `readlines` yields no element for it). -/
def dropFinalEmpty (parts : List (List Char)) : List (List Char) :=
  match parts.getLast? with
  | some [] => parts.dropLast
  | _ => parts

/-- The logical lines of a text file, as Python `readlines` produces them
(modulo the line terminators, which the callers strip anyway). -/
def pyReadlines (s : String) : List String :=
  (dropFinalEmpty (splitCh '\n' s.data)).map (fun l => ⟨l⟩)

/-! ## Data model: parsed configuration documents and the file system -/

/-- One `[Section]` of an INI document: ordered key/value pairs as
`configparser` stores them (keys already case-normalized; `configparser`
rejects duplicate keys, so lookups use the first match). -/
abbrev IniSection := List (String × String)

/-- A parsed configuration document: ordered named sections
(`configparser` rejects duplicate section names). -/
abbrev ConfigDoc := List (String × IniSection)

/-- `section in config` / `config[section]`: first section of that name. -/
def findSection (doc : ConfigDoc) (name : String) : Option IniSection :=
  (doc.find? (fun p => p.1 = name)).map (fun p => p.2)

/-- `dict.get(key, default)` on a section's key/value pairs. -/
def getDefault (m : IniSection) (key dflt : String) : String :=
  match m.find? (fun p => p.1 = key) with
  | some p => p.2
  | none => dflt

/-- The file-system state: raw text files, INI files (held in parsed
form), and directories. -/
structure World where
  textFiles : String → Option String
  iniFiles : String → Option ConfigDoc
  dirs : String → Bool

/-- `os.path.isfile`. -/
def World.isfile (w : World) (p : String) : Bool :=
  (w.textFiles p).isSome || (w.iniFiles p).isSome

/-- `os.path.exists` (file or directory). -/
def World.pathExists (w : World) (p : String) : Bool :=
  w.isfile p || w.dirs p

/-- Writing a text file (create or overwrite). -/
def World.writeText (w : World) (p content : String) : World :=
  { w with textFiles := fun q => if q = p then some content else w.textFiles q }

/-- `os.makedirs`. -/
def World.mkdirs (w : World) (p : String) : World :=
  { w with dirs := fun q => if q = p then true else w.dirs q }

/-- `os.remove`: raises `FileNotFoundError` on a missing file. -/
def World.removeFile (w : World) (p : String) : Except PyErr World :=
  if w.isfile p then
    .ok { w with
      textFiles := fun q => if q = p then none else w.textFiles q,
      iniFiles := fun q => if q = p then none else w.iniFiles q }
  else
    .error .fileNotFound

/-- `os.path.join` for the joins this code performs (absolute second
component wins; otherwise insert a slash). -/
def pathJoin (a b : String) : String :=
  if b.data.head? = some '/' then b
  else if a.data.getLast? = some '/' then a ++ b
  else a ++ "/" ++ b

/-- Resolution of a possibly relative path against the working
directory, as the OS does for every file operation in the source. -/
def resolvePath (cwd p : String) : String := pathJoin cwd p

/-! ## devinci_pybuilder.py -/

/-- `_read_config_section`: `configparser.read` silently ignores a
missing file (empty document); an absent section yields `{}`. -/
def readConfigSection (w : World) (cwd config_file section_name : String) : IniSection :=
  let doc := (w.iniFiles (resolvePath cwd config_file)).getD []
  (findSection doc section_name).getD []

/-- `_parse_scripts_from_config`: the `Scripts` section's values, keys
discarded, in declaration order. -/
def parseScriptsFromConfig (w : World) (cwd config_file : String) : List String :=
  (readConfigSection w cwd config_file "Scripts").map (fun p => p.2)

/-- The `for name in config['ConsoleScripts']` loop body:
`mod_rel_path, function = command.split(':')` raises `ValueError` unless
the split has exactly two parts; successful entries are appended in
iteration order and the first failure aborts the loop. -/
def consoleScriptEntries : List (String × String) → Except PyErr (List String)
  | [] => .ok []
  | p :: rest =>
    match pySplit p.2 ':' with
    | [m, f] => do
      let tail ← consoleScriptEntries rest
      .ok ((p.1 ++ "=" ++ m ++ ":" ++ f) :: tail)
    | _ => .error PyErr.valueError

/-- `_parse_entry_points_from_config`: for each `ConsoleScripts` entry,
`command.split(':')` unpacked into exactly two names — any other arity
raises `ValueError`.  Absent section: the result omits the
`console_scripts` key entirely. -/
def parseEntryPointsFromConfig (w : World) (cwd config_file : String) :
    Except PyErr (List (String × List String)) := do
  let doc := (w.iniFiles (resolvePath cwd config_file)).getD []
  match findSection doc "ConsoleScripts" with
  | none => .ok []
  | some entries => do
    let cmds ← consoleScriptEntries entries
    .ok [("console_scripts", cmds)]

/-- `_parse_requirements_from_file`: `open` raises `FileNotFoundError`
on a missing file; otherwise `readlines` then `strip` each line, no
filtering. -/
def parseRequirementsFromFile (w : World) (cwd requirements_file : String) :
    Except PyErr (List String) :=
  match w.textFiles (resolvePath cwd requirements_file) with
  | none => .error .fileNotFound
  | some content => .ok ((pyReadlines content).map pyStripStr)

/-- `_parse_build_info`: the `Build` section verbatim. -/
def parseBuildInfo (w : World) (cwd config_file : String) : IniSection :=
  readConfigSection w cwd config_file "Build"

/-- Python `repr` of a list of strings, as an f-string renders it (for
values free of quotes, backslashes and control characters). -/
def pyListRepr (xs : List String) : String :=
  "[" ++ String.intercalate ", " (xs.map (fun s => "'" ++ s ++ "'")) ++ "]"

/-- Python `repr` of a `Dict[str, List[str]]`, as an f-string renders it. -/
def pyDictRepr (d : List (String × List String)) : String :=
  "\x7b" ++ String.intercalate ", "
    (d.map (fun p => "'" ++ p.1 ++ "': " ++ pyListRepr p.2)) ++ "\x7d"

/-- The f-string template of `generate_setup_py`, before the final
`.strip()`. -/
def setupTemplate (build_info : IniSection) (scripts : List String)
    (entry_points : List (String × List String)) (requirements : List String) : String :=
  "\nfrom setuptools import setup, find_packages\n\nsetup(\n    name='"
    ++ getDefault build_info "name" "homepip_server"
    ++ "',\n    version='"
    ++ getDefault build_info "version" "1.0"
    ++ "',\n    description='"
    ++ getDefault build_info "description" ""
    ++ "',\n    long_description=open('"
    ++ getDefault build_info "long_description" "README.md"
    ++ "').read(),\n    license='"
    ++ getDefault build_info "license" "MIT"
    ++ "',\n    author='"
    ++ getDefault build_info "author" ""
    ++ "',\n    packages=find_packages(),\n    scripts="
    ++ pyListRepr scripts
    ++ ",\n    entry_points="
    ++ pyDictRepr entry_points
    ++ ",\n    install_requires="
    ++ pyListRepr requirements
    ++ ",\n    setup_requires=['setuptools', 'wheel'],\n\n)\n"

/-- `generate_setup_py`: parse build info, scripts and entry points from
`config_file`, the requirements always from the fixed relative path
`requirements.txt`, and render the stripped template. -/
def generateSetupPy (w : World) (cwd config_file : String) : Except PyErr String := do
  let build_info := parseBuildInfo w cwd config_file
  let scripts := parseScriptsFromConfig w cwd config_file
  let entry_points ← parseEntryPointsFromConfig w cwd config_file
  let requirements ← parseRequirementsFromFile w cwd "requirements.txt"
  .ok (pyStripStr (setupTemplate build_info scripts entry_points requirements))

/-! ## main.py -/

/-- Modelled from the spec: `write_cautious` lives in the external
`devinci_pyutils` package, outside this repository.  Per the spec's
output-file contract ("UTF-8 text, overwritten unconditionally if a
destination path is supplied"), it writes its content argument to its
path argument. -/
def writeCautious (w : World) (path content : String) : World :=
  w.writeText path content

/-- `generate_setup`: checks the config file exists, renders the
manifest, and — when `output_file` is truthy — calls
`write_cautious(os.getcwd(), content)`, passing the working directory
itself as the destination; otherwise returns the content. -/
def generateSetup (w : World) (cwd config_file : String) (output_file : Option String) :
    Except PyErr (Option String × World) := do
  if !(w.isfile (resolvePath cwd config_file)) then
    .error .fileNotFound
  else do
    let content ← generateSetupPy w cwd config_file
    match output_file with
    | some p =>
      if p = "" then .ok (some content, w)  -- empty string is falsy in Python
      else .ok (none, writeCautious w cwd content)
    | none => .ok (some content, w)

/-- `integration_task`: create `README.md` / `requirements.txt` if
absent, run `generate_setup_py`, then "delete if newly created" — as
written, the deletion condition re-checks `not os.path.isfile(...)`
after the file was created. -/
def integrationTask (w : World) (cwd config_file : String) : Except PyErr World := do
  let w1 := if w.isfile (resolvePath cwd "README.md") then w
            else w.writeText (resolvePath cwd "README.md") ""
  let w2 := if w1.isfile (resolvePath cwd "requirements.txt") then w1
            else w1.writeText (resolvePath cwd "requirements.txt") ""
  let _ ← generateSetupPy w2 cwd config_file
  let w3 ← if !(w2.isfile (pathJoin cwd "README.md")) then
             w2.removeFile (resolvePath cwd "README.md")
           else .ok w2
  let w4 ← if !(w3.isfile (pathJoin cwd "requirements.txt")) then
             w3.removeFile (resolvePath cwd "requirements.txt")
           else .ok w3
  .ok w4

/-! ## file_utils.py -/

/-- `create_directory`: `os.makedirs` only when the path does not exist. -/
def createDirectory (w : World) (directory : String) : World :=
  if w.pathExists directory then w else w.mkdirs directory

/-- `create_file`: only when the path does not exist, open for writing
(creating an empty file) and write `content` when it is truthy. -/
def createFile (w : World) (file_path : String) (content : Option String) : World :=
  if w.pathExists file_path then w
  else
    match content with
    | some c => if c = "" then w.writeText file_path ""  -- falsy: nothing written
                else w.writeText file_path c
    | none => w.writeText file_path ""

/-! ## build_chores/custom_install_command.py -/

/-- `shutil.copy`: raises if the source is missing, else copies. -/
def shutilCopy (w : World) (src dest : String) : Except PyErr World :=
  match w.textFiles src with
  | some c => .ok (w.writeText dest c)
  | none =>
    match w.iniFiles src with
    | some d => .ok { w with iniFiles := fun q => if q = dest then some d else w.iniFiles q }
    | none => .error .fileNotFound

/-- `CustomInstallCommand.copy_config_file`: copy the bundled
`stub/example-config.ini` to `<templates_dir>/config.ini` only when the
destination does not already exist. -/
def copyConfigFile (w : World) (pkg_dir templates_dir : String) : Except PyErr World :=
  let src := pathJoin (pathJoin pkg_dir "stub") "example-config.ini"
  let dest := pathJoin templates_dir "config.ini"
  if w.pathExists dest then .ok w
  else shutilCopy w src dest

/-! ## Helper lemmas on the string primitives -/

theorem splitCh_ne_nil (sep : Char) (l : List Char) : splitCh sep l ≠ [] := by
  cases l with
  | nil => simp [splitCh]
  | cons c cs =>
    simp only [splitCh]
    cases h : splitCh sep cs with
    | nil => simp
    | cons h t =>
      by_cases hc : c = sep <;> simp [hc]

theorem splitCh_not_mem {sep : Char} {l : List Char} (h : sep ∉ l) :
    splitCh sep l = [l] := by
  induction l with
  | nil => rfl
  | cons c cs ih =>
    have hc : c ≠ sep := fun e => h (e ▸ List.mem_cons_self c cs)
    have hcs : sep ∉ cs := fun m => h (List.mem_cons_of_mem c m)
    simp only [splitCh, ih hcs]
    simp [hc]

theorem splitCh_append_sep {sep : Char} {a : List Char} (b : List Char)
    (h : sep ∉ a) : splitCh sep (a ++ sep :: b) = a :: splitCh sep b := by
  induction a with
  | nil =>
    simp only [List.nil_append, splitCh]
    cases hb : splitCh sep b with
    | nil => exact absurd hb (splitCh_ne_nil sep b)
    | cons x t => simp
  | cons c cs ih =>
    have hc : c ≠ sep := fun e => h (e ▸ List.mem_cons_self c cs)
    have hcs : sep ∉ cs := fun m => h (List.mem_cons_of_mem c m)
    show splitCh sep (c :: (cs ++ sep :: b)) = (c :: cs) :: splitCh sep b
    simp only [splitCh, ih hcs]
    simp [hc]

theorem splitCh_length (sep : Char) (l : List Char) :
    (splitCh sep l).length = l.count sep + 1 := by
  induction l with
  | nil => rfl
  | cons c cs ih =>
    simp only [splitCh]
    cases h : splitCh sep cs with
    | nil => exact absurd h (splitCh_ne_nil sep cs)
    | cons x t =>
      rw [h] at ih
      by_cases hc : c = sep
      · subst hc
        simpa [List.count_cons] using ih
      · simpa [List.count_cons, hc] using ih

theorem splitCh_joinCh {sep : Char} {ls : List (List Char)}
    (hmem : ∀ l ∈ ls, sep ∉ l) (hne : ls ≠ []) :
    splitCh sep (joinCh sep ls) = ls := by
  induction ls with
  | nil => exact absurd rfl hne
  | cons l ls ih =>
    cases ls with
    | nil => exact splitCh_not_mem (hmem l (List.mem_cons_self l []))
    | cons m ms =>
      have h1 : sep ∉ l := hmem l (List.mem_cons_self l _)
      have h2 : ∀ x ∈ m :: ms, sep ∉ x := fun x hx => hmem x (List.mem_cons_of_mem l hx)
      show splitCh sep (l ++ sep :: joinCh sep (m :: ms)) = l :: m :: ms
      rw [splitCh_append_sep _ h1, ih h2 (by simp)]

theorem pySplit_not_mem {v : String} {sep : Char} (h : sep ∉ v.data) :
    pySplit v sep = [v] := by
  simp [pySplit, splitCh_not_mem h]

theorem pySplit_length (v : String) (sep : Char) :
    (pySplit v sep).length = v.data.count sep + 1 := by
  simp [pySplit, splitCh_length]

theorem pySplit_single_sep {m f : String} {sep : Char}
    (hm : sep ∉ m.data) (hf : sep ∉ f.data) :
    pySplit (m ++ String.singleton sep ++ f) sep = [m, f] := by
  have hdata : (m ++ String.singleton sep ++ f).data = m.data ++ sep :: f.data := by
    simp [String.singleton]
  simp only [pySplit, hdata, splitCh_append_sep _ hm, splitCh_not_mem hf]
  simp

theorem pyStrip_append_append (a x b : List Char)
    (ha : a.dropWhile pySpace ≠ []) (hb : b.reverse.dropWhile pySpace ≠ []) :
    pyStrip (a ++ x ++ b) =
      a.dropWhile pySpace ++ x ++ (b.reverse.dropWhile pySpace).reverse := by
  unfold pyStrip
  rw [List.append_assoc, List.dropWhile_append]
  simp only [List.isEmpty_iff, ha, if_false]
  rw [List.reverse_append, List.reverse_append, List.append_assoc,
    List.dropWhile_append]
  simp only [List.isEmpty_iff, hb, if_false]
  simp [List.reverse_append]

/-! ## Concrete worlds used by the claim theorems -/

/-- The empty file system. -/
def emptyWorld : World :=
  { textFiles := fun _ => none, iniFiles := fun _ => none, dirs := fun _ => false }

/-- A file system holding exactly one INI file, `/proj/config.ini`,
with the given parsed document. -/
def iniWorld (doc : ConfigDoc) : World :=
  { textFiles := fun _ => none,
    iniFiles := fun p => if p = "/proj/config.ini" then some doc else none,
    dirs := fun _ => false }

theorem iniWorld_read (doc : ConfigDoc) :
    (iniWorld doc).iniFiles (resolvePath "/proj" "config.ini") = some doc := rfl

/-! ## Shared facts about the entry-point extractor -/

theorem entryPoints_ok_of_single_colon (doc : ConfigDoc) (k m f : String)
    (hm : ':' ∉ m.data) (hf : ':' ∉ f.data)
    (hsec : findSection doc "ConsoleScripts" = some [(k, m ++ ":" ++ f)]) :
    parseEntryPointsFromConfig (iniWorld doc) "/proj" "config.ini" =
      .ok [("console_scripts", [k ++ "=" ++ m ++ ":" ++ f])] := by
  have hsplit : pySplit (m ++ ":" ++ f) ':' = [m, f] := pySplit_single_sep hm hf
  simp only [parseEntryPointsFromConfig, iniWorld_read, Option.getD_some, hsec,
    consoleScriptEntries, hsplit]
  rfl

theorem entryPoints_err_of_no_colon (doc : ConfigDoc) (k v : String)
    (hv : ':' ∉ v.data)
    (hsec : findSection doc "ConsoleScripts" = some [(k, v)]) :
    parseEntryPointsFromConfig (iniWorld doc) "/proj" "config.ini" =
      .error PyErr.valueError := by
  have hsplit : pySplit v ':' = [v] := pySplit_not_mem hv
  simp only [parseEntryPointsFromConfig, iniWorld_read, Option.getD_some, hsec,
    consoleScriptEntries, hsplit]
  rfl

theorem entryPoints_err_of_colon_count_ne_one (doc : ConfigDoc) (k v : String)
    (hcount : v.data.count ':' ≠ 1)
    (hsec : findSection doc "ConsoleScripts" = some [(k, v)]) :
    parseEntryPointsFromConfig (iniWorld doc) "/proj" "config.ini" =
      .error PyErr.valueError := by
  have hlen := pySplit_length v ':'
  simp only [parseEntryPointsFromConfig, iniWorld_read, Option.getD_some, hsec,
    consoleScriptEntries]
  rcases hsplit : pySplit v ':' with _ | ⟨a, _ | ⟨b, _ | ⟨c, t⟩⟩⟩
  · rfl
  · rfl
  · exfalso
    rw [hsplit] at hlen
    simp at hlen
    omega
  · rfl

/-! ## Claim theorems -/

/-- C1: for a `ConsoleScripts` section holding exactly the entry
`(k, m ++ ":" ++ f)` with exactly one colon in the value, extraction
yields the mapping `[("console_scripts", [k ++ "=" ++ m ++ ":" ++ f])]`;
and for a section holding exactly an entry whose value has no colon,
extraction raises `ValueError` (the unpack-arity failure) rather than
producing a truncated entry. -/
theorem entry_points_single_colon_ok_no_colon_error :
    (∀ (doc : ConfigDoc) (k m f : String), ':' ∉ m.data → ':' ∉ f.data →
      findSection doc "ConsoleScripts" = some [(k, m ++ ":" ++ f)] →
      parseEntryPointsFromConfig (iniWorld doc) "/proj" "config.ini" =
        .ok [("console_scripts", [k ++ "=" ++ m ++ ":" ++ f])]) ∧
    (∀ (doc : ConfigDoc) (k v : String), ':' ∉ v.data →
      findSection doc "ConsoleScripts" = some [(k, v)] →
      parseEntryPointsFromConfig (iniWorld doc) "/proj" "config.ini" =
        .error PyErr.valueError) :=
  ⟨entryPoints_ok_of_single_colon, entryPoints_err_of_no_colon⟩

/-- C1 witness: `foo = pkg.mod:run` yields exactly `foo=pkg.mod:run`
under `console_scripts`; the colon-free value `pkgmodrun` raises
`ValueError`. -/
theorem entry_points_single_colon_ok_no_colon_error_witness :
    parseEntryPointsFromConfig
        (iniWorld [("ConsoleScripts", [("foo", "pkg.mod:run")])]) "/proj" "config.ini" =
      .ok [("console_scripts", ["foo=pkg.mod:run"])] ∧
    parseEntryPointsFromConfig
        (iniWorld [("ConsoleScripts", [("bar", "pkgmodrun")])]) "/proj" "config.ini" =
      .error PyErr.valueError := by
  constructor
  · exact entry_points_single_colon_ok_no_colon_error.1
      [("ConsoleScripts", [("foo", "pkg.mod:run")])] "foo" "pkg.mod" "run"
      (by decide) (by decide) (by decide)
  · exact entry_points_single_colon_ok_no_colon_error.2
      [("ConsoleScripts", [("bar", "pkgmodrun")])] "bar" "pkgmodrun"
      (by decide) (by decide)

/-- C2 counterexample: the claim predicts that `foo = pkg.mod:run:extra`
(two colons) splits at the first colon into `foo=pkg.mod:run:extra`; the
code instead splits at every colon, gets three parts, and the two-name
unpacking raises `ValueError`. -/
theorem entry_points_first_colon_counterexample :
    parseEntryPointsFromConfig
        (iniWorld [("ConsoleScripts", [("foo", "pkg.mod:run:extra")])]) "/proj" "config.ini" =
      .error PyErr.valueError ∧
    parseEntryPointsFromConfig
        (iniWorld [("ConsoleScripts", [("foo", "pkg.mod:run:extra")])]) "/proj" "config.ini" ≠
      .ok [("console_scripts", ["foo=pkg.mod:run:extra"])] := by
  refine ⟨rfl, fun hok => ?_⟩
  exact Except.noConfusion hok

/-- C2 (amended): the extractor succeeds exactly on values with one
colon, producing `k ++ "=" ++ m ++ ":" ++ f`; a value whose colon count
differs from one (zero, or two and more) raises the split-arity
`ValueError` — the split is over every colon, not the first only. -/
theorem entry_points_split_arity :
    (∀ (doc : ConfigDoc) (k m f : String), ':' ∉ m.data → ':' ∉ f.data →
      findSection doc "ConsoleScripts" = some [(k, m ++ ":" ++ f)] →
      parseEntryPointsFromConfig (iniWorld doc) "/proj" "config.ini" =
        .ok [("console_scripts", [k ++ "=" ++ m ++ ":" ++ f])]) ∧
    (∀ (doc : ConfigDoc) (k v : String), v.data.count ':' ≠ 1 →
      findSection doc "ConsoleScripts" = some [(k, v)] →
      parseEntryPointsFromConfig (iniWorld doc) "/proj" "config.ini" =
        .error PyErr.valueError) :=
  ⟨entryPoints_ok_of_single_colon, entryPoints_err_of_colon_count_ne_one⟩

/-- C2 witness: one colon succeeds; the two-colon value
`pkg.mod:run:extra` raises `ValueError`. -/
theorem entry_points_split_arity_witness :
    parseEntryPointsFromConfig
        (iniWorld [("ConsoleScripts", [("app", "pkg.cli:main")])]) "/proj" "config.ini" =
      .ok [("console_scripts", ["app=pkg.cli:main"])] ∧
    parseEntryPointsFromConfig
        (iniWorld [("ConsoleScripts", [("app", "pkg.cli:main:x")])]) "/proj" "config.ini" =
      .error PyErr.valueError := by
  constructor
  · exact entry_points_split_arity.1
      [("ConsoleScripts", [("app", "pkg.cli:main")])] "app" "pkg.cli" "main"
      (by decide) (by decide) (by decide)
  · exact entry_points_split_arity.2
      [("ConsoleScripts", [("app", "pkg.cli:main:x")])] "app" "pkg.cli:main:x"
      (by decide) (by decide)

/-- C7: an absent `Scripts` section projects to the empty list, and a
present section with N entries projects to exactly its N values, keys
discarded, in declaration order. -/
theorem scripts_projection :
    (∀ (doc : ConfigDoc), findSection doc "Scripts" = none →
      parseScriptsFromConfig (iniWorld doc) "/proj" "config.ini" = []) ∧
    (∀ (doc : ConfigDoc) (entries : IniSection),
      findSection doc "Scripts" = some entries →
      parseScriptsFromConfig (iniWorld doc) "/proj" "config.ini" = entries.map Prod.snd ∧
      (parseScriptsFromConfig (iniWorld doc) "/proj" "config.ini").length = entries.length) := by
  constructor
  · intro doc hsec
    simp [parseScriptsFromConfig, readConfigSection, iniWorld_read, hsec]
  · intro doc entries hsec
    constructor
    · simp [parseScriptsFromConfig, readConfigSection, iniWorld_read, hsec]
    · simp [parseScriptsFromConfig, readConfigSection, iniWorld_read, hsec]

/-- C7 witness: a document without a `Scripts` section yields `[]`; a
two-entry `Scripts` section yields its two values in order. -/
theorem scripts_projection_witness :
    parseScriptsFromConfig (iniWorld [("Build", [("name", "x")])]) "/proj" "config.ini" = [] ∧
    parseScriptsFromConfig
        (iniWorld [("Scripts", [("a", "bin/one.py"), ("b", "bin/two.py")])])
        "/proj" "config.ini" = ["bin/one.py", "bin/two.py"] := by
  constructor
  · exact scripts_projection.1 [("Build", [("name", "x")])] (by decide)
  · exact (scripts_projection.2
      [("Scripts", [("a", "bin/one.py"), ("b", "bin/two.py")])]
      [("a", "bin/one.py"), ("b", "bin/two.py")] (by decide)).1

/-- C6: the library-level section reader maps a missing config file to
the empty section (no failure), while the top-level `generate_setup`
rejects a missing config file with `FileNotFoundError` up front,
whatever the rest of the file system holds. -/
theorem missing_config_reader_vs_generate :
    (∀ (w : World) (cwd path sect : String),
      w.isfile (resolvePath cwd path) = false →
      readConfigSection w cwd path sect = []) ∧
    (∀ (w : World) (cwd cf : String) (out : Option String),
      w.isfile (resolvePath cwd cf) = false →
      generateSetup w cwd cf out = .error PyErr.fileNotFound) := by
  constructor
  · intro w cwd path sect h
    have hini : w.iniFiles (resolvePath cwd path) = none := by
      simp [World.isfile, Option.isSome_iff_exists] at h
      exact h.2
    simp [readConfigSection, hini, findSection]
  · intro w cwd cf out h
    simp [generateSetup, h]

/-- C6 witness: on the empty file system, the section reader yields the
empty section and the orchestrator raises config-not-found. -/
theorem missing_config_reader_vs_generate_witness :
    readConfigSection emptyWorld "/proj" "config.ini" "General" = [] ∧
    generateSetup emptyWorld "/proj" "config.ini" none = .error PyErr.fileNotFound := by
  constructor
  · exact missing_config_reader_vs_generate.1 emptyWorld "/proj" "config.ini" "General" rfl
  · exact missing_config_reader_vs_generate.2 emptyWorld "/proj" "config.ini" none rfl

/-! ## C4: rendering a `Build` section holding only `name` -/

/-- File system for the name-only config: the config document holds only
`[Build] name = X`, and an empty `requirements.txt` is present so that
rendering succeeds. -/
def c4World (X : String) : World :=
  { textFiles := fun p => if p = "/proj/requirements.txt" then some "" else none,
    iniFiles := fun p => if p = "/proj/config.ini" then
        some [("Build", [("name", X)])] else none,
    dirs := fun _ => false }

/-- The fixed template text before the interpolated name. -/
def c4T1 : String := "\nfrom setuptools import setup, find_packages\n\nsetup(\n    name='"

/-- The fixed template text after the interpolated name, with every
other `Build` field at its default. -/
def c4T2 : String := "',\n    version='1.0',\n    description='',\n    long_description=open('README.md').read(),\n    license='MIT',\n    author='',\n    packages=find_packages(),\n    scripts=[],\n    entry_points=\x7b\x7d,\n    install_requires=[],\n    setup_requires=['setuptools', 'wheel'],\n\n)\n"

/-- `c4T1` after the leading strip. -/
def c4T1s : String := "from setuptools import setup, find_packages\n\nsetup(\n    name='"

/-- `c4T2` after the trailing strip. -/
def c4T2s : String := "',\n    version='1.0',\n    description='',\n    long_description=open('README.md').read(),\n    license='MIT',\n    author='',\n    packages=find_packages(),\n    scripts=[],\n    entry_points=\x7b\x7d,\n    install_requires=[],\n    setup_requires=['setuptools', 'wheel'],\n\n)"

theorem infix_append_left {l b : List Char} (a : List Char) (h : l <:+: b) :
    l <:+: a ++ b :=
  h.trans ⟨a, [], by simp⟩

theorem pyStripStr_data (s : String) : (pyStripStr s).data = pyStrip s.data := rfl

set_option maxRecDepth 4000 in
set_option maxHeartbeats 1000000 in
theorem c4_strip (X : String) :
    (pyStripStr (setupTemplate [("name", X)] [] [] [])).data =
      c4T1s.data ++ (X.data ++ c4T2s.data) := by
  have h1 : getDefault [("name", X)] "name" "homepip_server" = X := rfl
  have h2 : getDefault [("name", X)] "version" "1.0" = "1.0" := rfl
  have h3 : getDefault [("name", X)] "description" "" = "" := rfl
  have h4 : getDefault [("name", X)] "long_description" "README.md" = "README.md" := rfl
  have h5 : getDefault [("name", X)] "license" "MIT" = "MIT" := rfl
  have h6 : getDefault [("name", X)] "author" "" = "" := rfl
  have h7 : pyListRepr [] = "[]" := rfl
  have h8 : pyDictRepr [] = "\x7b\x7d" := rfl
  have hd : (setupTemplate [("name", X)] [] [] []).data =
      c4T1.data ++ (X.data ++ c4T2.data) := by
    simp only [setupTemplate, c4T1, c4T2, h1, h2, h3, h4, h5, h6, h7, h8,
      String.data_append, List.append_assoc]
    rw [List.append_right_inj, List.append_right_inj]
    decide
  rw [pyStripStr_data, hd, ← List.append_assoc,
    pyStrip_append_append c4T1.data X.data c4T2.data (by decide) (by decide)]
  rw [show c4T1.data.dropWhile pySpace = c4T1s.data from by decide,
    show (c4T2.data.reverse.dropWhile pySpace).reverse = c4T2s.data from by decide,
    List.append_assoc]

set_option maxRecDepth 4000 in
set_option maxHeartbeats 1000000 in
/-- C4: for every name value `X`, generating from a config whose `Build`
section holds only `name = X` renders a manifest containing the literal
substring `name='X'`, with every other `Build` field at its documented
default: version `1.0`, license `MIT`, empty description and author, and
long-description path `README.md`. -/
theorem build_name_renders_with_defaults (X : String) :
    ∃ s : String,
      generateSetupPy (c4World X) "/proj" "config.ini" = Except.ok s ∧
      ("name='" ++ X ++ "'").data <:+: s.data ∧
      ("version='1.0'").data <:+: s.data ∧
      ("license='MIT'").data <:+: s.data ∧
      ("description=''").data <:+: s.data ∧
      ("author=''").data <:+: s.data ∧
      ("long_description=open('README.md').read()").data <:+: s.data := by
  refine ⟨pyStripStr (setupTemplate [("name", X)] [] [] []), rfl, ?_, ?_, ?_, ?_, ?_, ?_⟩
  · rw [c4_strip]
    refine ⟨"from setuptools import setup, find_packages\n\nsetup(\n    ".data,
      c4T2s.data.tail, ?_⟩
    rw [show c4T1s.data =
        "from setuptools import setup, find_packages\n\nsetup(\n    ".data ++ "name='".data
      from by decide]
    rw [show c4T2s.data = Char.ofNat 39 :: c4T2s.data.tail from by decide]
    simp [List.append_assoc]
  · rw [c4_strip]
    exact infix_append_left _ (infix_append_left _ (by decide))
  · rw [c4_strip]
    exact infix_append_left _ (infix_append_left _ (by decide))
  · rw [c4_strip]
    exact infix_append_left _ (infix_append_left _ (by decide))
  · rw [c4_strip]
    exact infix_append_left _ (infix_append_left _ (by decide))
  · rw [c4_strip]
    exact infix_append_left _ (infix_append_left _ (by decide))

/-! ## C8: the requirements loader -/

theorem splitCh_joinCh_append {sep : Char} {ls : List (List Char)} (r : List Char)
    (hmem : ∀ l ∈ ls, sep ∉ l) (hne : ls ≠ []) :
    splitCh sep (joinCh sep ls ++ sep :: r) = ls ++ splitCh sep r := by
  induction ls with
  | nil => exact absurd rfl hne
  | cons l ls ih =>
    cases ls with
    | nil =>
      show splitCh sep (l ++ sep :: r) = l :: splitCh sep r
      exact splitCh_append_sep r (hmem l (List.mem_cons_self l []))
    | cons m ms =>
      have h1 : sep ∉ l := hmem l (List.mem_cons_self l _)
      have h2 : ∀ x ∈ m :: ms, sep ∉ x := fun x hx => hmem x (List.mem_cons_of_mem l hx)
      show splitCh sep ((l ++ sep :: joinCh sep (m :: ms)) ++ sep :: r) = _
      rw [List.append_assoc, List.cons_append, splitCh_append_sep _ h1,
        ih h2 (by simp)]
      simp

/-- `readlines` of a file whose content is the given newline-free lines
joined by newlines, with a trailing newline: exactly those lines. -/
theorem pyReadlines_joined (ls : List (List Char))
    (hmem : ∀ l ∈ ls, '\n' ∉ l) (hne : ls ≠ []) :
    pyReadlines ⟨joinCh '\n' ls ++ ['\n']⟩ = ls.map (fun l => (⟨l⟩ : String)) := by
  have hsplit : splitCh '\n' (joinCh '\n' ls ++ ['\n']) = ls ++ [[]] := by
    have h0 : splitCh '\n' (joinCh '\n' ls ++ '\n' :: []) = ls ++ splitCh '\n' [] :=
      splitCh_joinCh_append [] hmem hne
    simpa [splitCh] using h0
  simp only [pyReadlines, hsplit, dropFinalEmpty, List.getLast?_concat,
    List.dropLast_concat]

/-- C8: the loader returns one entry per input line, in order, each line
stripped, blank lines kept: concretely the file `"a==1.0\n\nb"` yields
exactly `["a==1.0", "", "b"]`, and generally a file of newline-free
lines joined by newlines (trailing newline included) yields exactly the
strip of each line in order. -/
theorem requirements_lines :
    (∀ (w : World) (cwd : String),
      w.textFiles (resolvePath cwd "requirements.txt") = some "a==1.0\n\nb" →
      parseRequirementsFromFile w cwd "requirements.txt" = .ok ["a==1.0", "", "b"]) ∧
    (∀ (w : World) (cwd : String) (ls : List (List Char)),
      (∀ l ∈ ls, '\n' ∉ l) → ls ≠ [] →
      w.textFiles (resolvePath cwd "requirements.txt") = some ⟨joinCh '\n' ls ++ ['\n']⟩ →
      parseRequirementsFromFile w cwd "requirements.txt" =
        .ok (ls.map (fun l => pyStripStr ⟨l⟩))) := by
  constructor
  · intro w cwd h
    simp only [parseRequirementsFromFile, h]
    rfl
  · intro w cwd ls hmem hne h
    simp only [parseRequirementsFromFile, h, pyReadlines_joined ls hmem hne,
      List.map_map]
    rfl

/-- C8 witness: the concrete file from the claim, and the general part
at the three lines `[" x==1 ", "", "y"]` (whitespace stripped, blank
kept). -/
theorem requirements_lines_witness :
    parseRequirementsFromFile
        (World.mk (fun p => if p = "/proj/requirements.txt" then some "a==1.0\n\nb" else none)
          (fun _ => none) (fun _ => false))
        "/proj" "requirements.txt" = .ok ["a==1.0", "", "b"] ∧
    parseRequirementsFromFile
        (World.mk (fun p => if p = "/proj/requirements.txt" then some " x==1 \n\ny\n" else none)
          (fun _ => none) (fun _ => false))
        "/proj" "requirements.txt" = .ok ["x==1", "", "y"] := by
  constructor
  · exact requirements_lines.1 _ "/proj" rfl
  · have h := requirements_lines.2
      (World.mk (fun p => if p = "/proj/requirements.txt" then some " x==1 \n\ny\n" else none)
        (fun _ => none) (fun _ => false))
      "/proj" [" x==1 ".data, "".data, "y".data]
      (by decide) (by decide) (by decide)
    rw [h]
    rfl

/-- C9: `generate_setup_py` always loads requirements from the fixed
relative path `requirements.txt` — whatever `config_file` argument it
received — and whenever that fixed-path file is absent it raises
`FileNotFoundError`, even when the config file parses fine (entry-point
extraction succeeds). -/
theorem requirements_fixed_path :
    (∀ (w : World) (cwd cf : String) (reqs : List String)
        (eps : List (String × List String)),
      parseRequirementsFromFile w cwd "requirements.txt" = .ok reqs →
      parseEntryPointsFromConfig w cwd cf = .ok eps →
      generateSetupPy w cwd cf =
        .ok (pyStripStr (setupTemplate (parseBuildInfo w cwd cf)
          (parseScriptsFromConfig w cwd cf) eps reqs))) ∧
    (∀ (w : World) (cwd cf : String) (eps : List (String × List String)),
      parseEntryPointsFromConfig w cwd cf = .ok eps →
      w.textFiles (resolvePath cwd "requirements.txt") = none →
      generateSetupPy w cwd cf = .error PyErr.fileNotFound) := by
  constructor
  · intro w cwd cf reqs eps hreq heps
    simp only [generateSetupPy, heps, hreq]
    rfl
  · intro w cwd cf eps heps habs
    simp only [generateSetupPy, heps, parseRequirementsFromFile, habs]
    rfl

/-- C9 witness: with a valid config at the unusual path
`/proj/special.ini`, generation still insists on `requirements.txt`:
it succeeds when that fixed path exists and raises file-not-found when
it is absent. -/
theorem requirements_fixed_path_witness :
    generateSetupPy
        (World.mk (fun p => if p = "/proj/requirements.txt" then some "pkgA\n" else none)
          (fun p => if p = "/proj/special.ini" then some [] else none) (fun _ => false))
        "/proj" "special.ini" =
      .ok (pyStripStr (setupTemplate [] [] [] ["pkgA"])) ∧
    generateSetupPy
        (World.mk (fun _ => none)
          (fun p => if p = "/proj/special.ini" then some [] else none) (fun _ => false))
        "/proj" "special.ini" = .error PyErr.fileNotFound := by
  constructor
  · exact requirements_fixed_path.1 _ "/proj" "special.ini" ["pkgA"] [] rfl rfl
  · exact requirements_fixed_path.2 _ "/proj" "special.ini" [] rfl rfl

/-! ## C3 and C5: the integration task and the output-file path -/

/-- C3 (the code as written): starting from a working directory holding
nothing at all, the integration task creates the `README.md` and
`requirements.txt` placeholders and generation succeeds, but the
deletion step re-checks `not os.path.isfile(...)` on files that were
just created — the condition is inverted, never fires, and both
placeholders are still present when the task returns. -/
theorem integration_task_leaves_placeholders :
    integrationTask emptyWorld "/proj" "config.ini" =
      .ok ((emptyWorld.writeText (resolvePath "/proj" "README.md") "").writeText
        (resolvePath "/proj" "requirements.txt") "") ∧
    ((emptyWorld.writeText (resolvePath "/proj" "README.md") "").writeText
        (resolvePath "/proj" "requirements.txt") "").textFiles "/proj/README.md" = some "" ∧
    ((emptyWorld.writeText (resolvePath "/proj" "README.md") "").writeText
        (resolvePath "/proj" "requirements.txt") "").textFiles "/proj/requirements.txt" =
      some "" := by
  refine ⟨rfl, ?_, ?_⟩ <;> decide

/-- World for C5: a parsed (empty) config document and an empty
requirements file under `/proj`. -/
def c5World : World :=
  { textFiles := fun p => if p = "/proj/requirements.txt" then some "" else none,
    iniFiles := fun p => if p = "/proj/config.ini" then some [] else none,
    dirs := fun _ => false }

/-- C5 (the code as written): with the destination `custom.py` supplied,
`generate_setup` hands `write_cautious` the working-directory path
`os.getcwd()` instead of the destination: afterwards nothing exists at
`/proj/custom.py`, while the rendered text sits under the key `/proj`
itself.  The supplied destination is never written, so re-reading it
cannot yield the rendered string. -/
theorem generate_setup_ignores_output_file :
    generateSetup c5World "/proj" "config.ini" (some "custom.py") =
      .ok (none, writeCautious c5World "/proj" (pyStripStr (setupTemplate [] [] [] []))) ∧
    (writeCautious c5World "/proj"
        (pyStripStr (setupTemplate [] [] [] []))).textFiles "/proj/custom.py" = none ∧
    (writeCautious c5World "/proj"
        (pyStripStr (setupTemplate [] [] [] []))).textFiles "/proj" =
      some (pyStripStr (setupTemplate [] [] [] [])) := by
  refine ⟨rfl, ?_, ?_⟩
  · rfl
  · rfl

/-! ## C10: the create-if-absent helpers -/

/-- C10: every create-if-absent helper leaves an existing target alone:
`create_directory` and `create_file` return the state unchanged when the
path already exists, and the install hook's `copy_config_file` does not
overwrite an existing destination config. -/
theorem create_if_absent_preserves_existing :
    (∀ (w : World) (d : String), w.pathExists d = true → createDirectory w d = w) ∧
    (∀ (w : World) (p : String) (c : Option String),
      w.pathExists p = true → createFile w p c = w) ∧
    (∀ (w : World) (pkg tmpl : String),
      w.pathExists (pathJoin tmpl "config.ini") = true →
      copyConfigFile w pkg tmpl = .ok w) := by
  refine ⟨?_, ?_, ?_⟩
  · intro w d h
    simp [createDirectory, h]
  · intro w p c h
    simp [createFile, h]
  · intro w pkg tmpl h
    simp [copyConfigFile, h]

/-- World for the C10 witness: one text file, one directory, and an
existing destination config under the templates directory. -/
def c10World : World :=
  { textFiles := fun p =>
      if p = "/a/b.txt" then some "hello"
      else if p = "/t/config.ini" then some "cfg" else none,
    iniFiles := fun _ => none,
    dirs := fun p => p = "/d" }

/-- C10 witness: the helpers leave `c10World` untouched on its existing
directory, file, and destination config. -/
theorem create_if_absent_preserves_existing_witness :
    createDirectory c10World "/d" = c10World ∧
    createFile c10World "/a/b.txt" (some "new content") = c10World ∧
    copyConfigFile c10World "/pkg" "/t" = .ok c10World :=
  ⟨create_if_absent_preserves_existing.1 c10World "/d" (by decide),
   (create_if_absent_preserves_existing.2.1) c10World "/a/b.txt" (some "new content")
     (by decide),
   (create_if_absent_preserves_existing.2.2) c10World "/pkg" "/t" (by decide)⟩
